import Mathlib

/-!
Shallow embedding of `src/plugins/mmstd_volume/src/RaycastVolumeRenderer.cpp`
(a GPU raycast volume renderer) together with theorems about its
volume-upload, transfer-function, raycast-dispatch and compositing logic.

GPU calls are modelled as an explicit action trace, machine floats are
modelled as rationals, and OpenGL enumerants keep their numeric values, so
that every definition evaluates on concrete inputs.
-/

/-- OpenGL enumerant `GL_RED`. -/
def GL_RED : Nat := 0x1903

/-- OpenGL enumerant `GL_R32F`. -/
def GL_R32F : Nat := 0x822E

/-- OpenGL enumerant `GL_FLOAT`. -/
def GL_FLOAT : Nat := 0x1406

/-- OpenGL enumerant `GL_R8`. -/
def GL_R8 : Nat := 0x8229

/-- OpenGL enumerant `GL_UNSIGNED_BYTE`. -/
def GL_UNSIGNED_BYTE : Nat := 0x1401

/-- OpenGL enumerant `GL_R16UI`. -/
def GL_R16UI : Nat := 0x8234

/-- OpenGL enumerant `GL_UNSIGNED_SHORT`. -/
def GL_UNSIGNED_SHORT : Nat := 0x1403

/-- OpenGL enumerant `GL_R16I`. -/
def GL_R16I : Nat := 0x8233

/-- OpenGL enumerant `GL_SHORT`. -/
def GL_SHORT : Nat := 0x1402

/-- OpenGL enumerant `GL_TEXTURE_1D`. -/
def GL_TEXTURE_1D : Nat := 0x0DE0

/-- OpenGL enumerant `GL_TEXTURE_2D`. -/
def GL_TEXTURE_2D : Nat := 0x0DE1

/-- OpenGL enumerant `GL_TEXTURE_3D`. -/
def GL_TEXTURE_3D : Nat := 0x806F

/-- OpenGL enumerant `GL_SRC_ALPHA`. -/
def GL_SRC_ALPHA : Nat := 0x0302

/-- OpenGL enumerant `GL_ONE_MINUS_SRC_ALPHA`. -/
def GL_ONE_MINUS_SRC_ALPHA : Nat := 0x0303

/-- Largest finite value of a 32-bit IEEE float (`std::numeric_limits<float>::max()`),
exact as a rational: `(2^24 - 1) * 2^104`. -/
def flt_max : ℚ := (2 ^ 24 - 1) * 2 ^ 104

/-- Smallest finite value of a 32-bit IEEE float (`std::numeric_limits<float>::lowest()`). -/
def flt_lowest : ℚ := -flt_max

/-- A triple of scalars, standing for the C++ `float[3]` / `std::array<float, 3>` vectors. -/
abbrev Vec3 := ℚ × ℚ × ℚ

/-- A quadruple of scalars, standing for `float[4]` (light position, RGBA colors). -/
abbrev Vec4 := ℚ × ℚ × ℚ × ℚ

/-- Modelled from the spec: the grid-type enumeration of the volumetric data call
interface (`megamol::core::misc`), whose declaration is not part of the reviewed
source file.  The spec (§3, §4.1) names CARTESIAN as the sole supported grid type
among several.  It is an unscoped C++ enum without explicit initializers (the source
uses `core::misc::CARTESIAN` unqualified and applies `!` to a metadata value of this
type, both of which require an unscoped enum), so its members are numbered
consecutively from 0: NONE = 0. -/
def NONE : Nat := 0

/-- Modelled from the spec: grid type CARTESIAN = 1 (see `NONE`). -/
def CARTESIAN : Nat := 1

/-- Modelled from the spec: grid type RECTILINEAR = 2 (see `NONE`). -/
def RECTILINEAR : Nat := 2

/-- Modelled from the spec: grid type TETRAHEDRAL = 3 (see `NONE`). -/
def TETRAHEDRAL : Nat := 3

/-- The scalar-type enumeration of the volume metadata, with exactly the members the
source's `switch (metadata->ScalarType)` distinguishes (lines 629-668). -/
inductive ScalarType where
  | FLOATING_POINT
  | UNSIGNED_INTEGER
  | SIGNED_INTEGER
  | BITS
deriving DecidableEq

/-- The volume metadata record fields the renderer reads (`metadata->GridType`,
`Origin`, `Extents`, `Resolution`, `ScalarType`, `ScalarLength`, `MinValues[0]`,
`MaxValues[0]`).  The grid type is kept as the C++ enum's underlying integer, because
the source's grid-type test depends on that integer (see `gridTypeCheckFires`). -/
structure VolumeMetadata where
  GridType : Nat
  Origin : Vec3
  Extents : Vec3
  Resolution : Nat × Nat × Nat
  ScalarType : ScalarType
  ScalarLength : Nat
  MinValues0 : ℚ
  MaxValues0 : ℚ
deriving DecidableEq

/-- The settled answer of the volumetric data source for one requested frame: the
fetch loop of `updateVolumeData` (lines 591-595) repeats GET_EXTENTS / GET_METADATA /
GET_DATA until `cd->FrameID()` equals the requested frame, and any failing call makes
`updateVolumeData` return `false`; a settled answer therefore carries the data hash,
the (matching) frame id, the metadata, and an opaque handle for the raw data
pointer `cd->GetData()`. -/
structure VolDataResponse where
  DataHash : Nat
  FrameID : Nat
  Metadata : VolumeMetadata
  Data : Nat
deriving DecidableEq

/-- The `(internal_format, format, type)` triple selected by the scalar-format
switch of `updateVolumeData` (lines 625-668). -/
structure TextureFormat where
  internal_format : Nat
  format : Nat
  type : Nat
deriving DecidableEq

/-- The `glowl::TextureLayout` the renderer constructs for the 3D volume texture
(lines 674-679): internal format, the three resolution components, format, type. -/
structure TextureLayout where
  internal_format : Nat
  width : Nat
  height : Nat
  depth : Nat
  format : Nat
  type : Nat
deriving DecidableEq

/-- Embeds the grid-type test of line 607, `!metadata->GridType == core::misc::CARTESIAN`,
with C++ semantics: `!` binds tighter than `==`, so the enum value first converts to
`bool` (`true` iff nonzero) and is negated, then the resulting `bool` promotes to the
integer 0 or 1 and is compared with `CARTESIAN`.  The function returns `true` when the
`if` fires, i.e. when `updateVolumeData` takes the error branch. -/
def gridTypeCheckFires (g : Nat) : Bool :=
  (if g = 0 then 1 else 0) == CARTESIAN

/-- Embeds the scalar-format switch of `updateVolumeData` (lines 629-668), mapping
the metadata's scalar type and scalar length to the GL format triple, or `none`
where the source logs an error and returns `false`. -/
def mapScalarFormat : ScalarType → Nat → Option TextureFormat
  | .FLOATING_POINT, len =>
      if len = 4 then some ⟨GL_R32F, GL_RED, GL_FLOAT⟩ else none
  | .UNSIGNED_INTEGER, len =>
      if len = 1 then some ⟨GL_R8, GL_RED, GL_UNSIGNED_BYTE⟩
      else if len = 2 then some ⟨GL_R16UI, GL_RED, GL_UNSIGNED_SHORT⟩
      else none
  | .SIGNED_INTEGER, len =>
      if len = 2 then some ⟨GL_R16I, GL_RED, GL_SHORT⟩ else none
  | .BITS, _ => none

/-- The format table of spec §4.1, written from the spec's words for comparison with
`mapScalarFormat`: (float, 4) is 32-bit float 1-channel, (unsigned, 1) is 8-bit
unsigned 1-channel, (unsigned, 2) is 16-bit unsigned 1-channel, (signed, 2) is 16-bit
signed 1-channel, and every other combination (including bits) is unsupported. -/
def specFormatTable (st : ScalarType) (len : Nat) : Option TextureFormat :=
  if st = .FLOATING_POINT ∧ len = 4 then some ⟨GL_R32F, GL_RED, GL_FLOAT⟩
  else if st = .UNSIGNED_INTEGER ∧ len = 1 then some ⟨GL_R8, GL_RED, GL_UNSIGNED_BYTE⟩
  else if st = .UNSIGNED_INTEGER ∧ len = 2 then some ⟨GL_R16UI, GL_RED, GL_UNSIGNED_SHORT⟩
  else if st = .SIGNED_INTEGER ∧ len = 2 then some ⟨GL_R16I, GL_RED, GL_SHORT⟩
  else none

/-- The `glowl::TextureLayout` built for the volume texture at lines 674-679. -/
def volumeLayout (fmt : TextureFormat) (md : VolumeMetadata) : TextureLayout :=
  ⟨fmt.internal_format, md.Resolution.1, md.Resolution.2.1, md.Resolution.2.2,
    fmt.format, fmt.type⟩

/-- The mutable members of `RaycastVolumeRenderer` that the volume-upload and
transfer-function logic reads and writes: the cached data identity
(`m_volume_datahash`, `m_frame_id`), the cached geometry (`m_volume_origin`,
`m_volume_extents`, `m_volume_resolution`), the cached value range (`valRange`),
the owned 3D texture (`m_volume_texture`, modelled as its layout plus the data
handle it was created from), and the held transfer-function handle (`tf_texture`). -/
structure RendererState where
  m_volume_datahash : Nat
  m_frame_id : Nat
  m_volume_origin : Vec3
  m_volume_extents : Vec3
  m_volume_resolution : Nat × Nat × Nat
  valRange : ℚ × ℚ
  m_volume_texture : Option (TextureLayout × Nat)
  tf_texture : Nat
deriving DecidableEq

/-- Names of the shader uniforms the renderer sets (one constructor per
`ParameterLocation' string in the source; `rayStep` stands for the source's
ray-step-ratio uniform). -/
inductive UName where
  | view_mx | proj_mx | rt_resolution | boxMin | boxMax | halfVoxelSize | voxelSize
  | valRange | rayStep | use_lighting | ka | kd | ks | shininess | light
  | ambient_col | specular_col | light_col | material_col | background
  | opacityThreshold | isoValue | opacity
  | volume_tx3D | tf_tx1D | color_tx2D | depth_tx2D | use_depth_tx
  | src_tx2D | normal_tx2D
deriving DecidableEq

/-- Values passed to `glUniform*`: integers, scalars, small vectors, or an opaque
handle for a 4x4 matrix taken from the camera. -/
inductive UVal where
  | i (n : Int)
  | f (q : ℚ)
  | v2 (a b : ℚ)
  | v3 (a b c : ℚ)
  | mat (h : Nat)
deriving DecidableEq

/-- Identifies which texture a `glBindTexture`-style call binds: the owned volume
texture, the transfer-function texture (carrying the held handle), the chained
renderer's FBO color or depth attachment, one of the three render targets, or the
zero handle used for unbinding. -/
inductive BoundTex where
  | volume
  | transfer (id : Nat)
  | fboColor
  | fboDepth
  | renderTarget
  | normalTarget
  | depthTarget
  | null
deriving DecidableEq

/-- The GPU shader programs the renderer owns (three compute programs picked by
mode, and the two full-screen compositing programs). -/
inductive Shader where
  | compute
  | compute_iso
  | compute_aggr
  | render_to_framebuffer
  | render_to_framebuffer_aggr
deriving DecidableEq

/-- One observable GPU call issued by `Render` / `updateVolumeData`, in program
order: chaining into the upstream renderer, snapshotting it into the FBO, creating
the 3D volume texture, fetching the transfer function, enabling/disabling programs,
setting uniforms, binding textures and images, dispatching compute, the memory
barrier, the aggregate-mode readback, and the full-screen draw. -/
inductive RenderAction where
  | fboSnapshot
  | chainRender
  | createVolumeTexture (layout : TextureLayout) (data : Nat)
  | tfFetch
  | enableProgram (p : Shader)
  | disableProgram (p : Shader)
  | uniform (n : UName) (v : UVal)
  | bindTexture (unit : Nat) (target : Nat) (tex : BoundTex)
  | bindImage (slot : Nat) (tex : BoundTex)
  | unbindImage (slot : Nat)
  | dispatchCompute (x y z : Nat)
  | memoryBarrier
  | readbackRenderTarget
  | drawBuffers2
  | drawArrays (n : Nat)
deriving DecidableEq

/-- Result of `updateVolumeData`: the returned `bool`, the renderer state after the
call, and the GPU uploads performed (`createVolumeTexture` actions). -/
structure UpdateOut where
  ok : Bool
  state : RendererState
  uploads : List RenderAction
deriving DecidableEq

/-- Embeds `RaycastVolumeRenderer::updateVolumeData` (lines 584-684).  The data
source interaction is the settled answer of the fetch loop: `none` when the slot is
unconnected or a GET call fails (the source returns `false` with no state change),
`some cd` when the loop exits with `cd->FrameID()` equal to the requested frame.
Then, following the source: if the cached `(m_volume_datahash, m_frame_id)` equals
the fetched identity, return `true` at once; otherwise cache the new identity first,
then run the grid-type check, then cache origin/extents/resolution/value-range, then
map the scalar format, and only on success create the 3D texture. -/
def updateVolumeData (s : RendererState) (resp : Option VolDataResponse) : UpdateOut :=
  match resp with
  | none => ⟨false, s, []⟩
  | some cd =>
    if s.m_volume_datahash = cd.DataHash ∧ s.m_frame_id = cd.FrameID then
      ⟨true, s, []⟩
    else
      let s1 := { s with m_volume_datahash := cd.DataHash, m_frame_id := cd.FrameID }
      let md := cd.Metadata
      if gridTypeCheckFires md.GridType then
        ⟨false, s1, []⟩
      else
        let s2 := { s1 with
          m_volume_origin := md.Origin
          m_volume_extents := md.Extents
          m_volume_resolution := md.Resolution
          valRange := (md.MinValues0, md.MaxValues0) }
        match mapScalarFormat md.ScalarType md.ScalarLength with
        | none => ⟨false, s2, []⟩
        | some fmt =>
          let layout := volumeLayout fmt md
          ⟨true, { s2 with m_volume_texture := some (layout, cd.Data) },
            [.createVolumeTexture layout cd.Data]⟩

/-- Embeds `RaycastVolumeRenderer::updateTransferFunction` (lines 686-695).  The
provider is `none` when the caller slot is unconnected (`ct == NULL`), `some none`
when the call `(*ct)()` fails, and `some (some t)` when it succeeds with texture `t`.
The held handle is replaced only in the success case, and the function returns
`true` in every case. -/
def updateTransferFunction (tf_texture : Nat) (ct : Option (Option Nat)) : Bool × Nat :=
  match ct with
  | some (some t) => (true, t)
  | some none => (true, tf_texture)
  | none => (true, tf_texture)

/-- The parameter-slot values `Render` reads (lines 303-402): the integer mode
value, the ray-step ratio, the lighting switches and coefficients, the four RGBA
colors, the three mode-specific scalars, and the value-range override. -/
structure RenderConfig where
  mode : Int
  ray_step : ℚ
  use_lighting : Bool
  ka : ℚ
  kd : ℚ
  ks : ℚ
  shininess : ℚ
  ambient_color : Vec4
  specular_color : Vec4
  light_color : Vec4
  material_color : Vec4
  opacity_threshold : ℚ
  iso_value : ℚ
  opacity : ℚ
  overrideEnabled : Bool
  minOverride : ℚ
  maxOverride : ℚ
deriving DecidableEq

/-- The per-frame environment of one `Render` call: whether an upstream renderer is
chained (`ci != nullptr`) and whether its `FnRender` call succeeds, the viewport
size, the camera matrices (opaque handles), the `GL_LIGHT0` position read by
`glGetLightfv`, the background color of the enclosing view (`none` when no
`AbstractRenderingView` parent is found, which means opaque white), the
transfer-function provider (see `updateTransferFunction`), the volumetric data
source's settled answer (see `updateVolumeData`), and the alpha channel that the
aggregate-mode readback would observe in the render target. -/
structure RenderEnv where
  chained : Bool
  chainedRenderOk : Bool
  viewportW : Nat
  viewportH : Nat
  viewMx : Nat
  projMx : Nat
  light : Vec4
  bkgnd : Option Vec3
  tfCall : Option (Option Nat)
  volResponse : Option VolDataResponse
  readbackAlphas : List ℚ
deriving DecidableEq

/-- The ambient GPU blend/depth state `Render` saves and restores (lines 506-523
and 574-579): the two enable flags and the four blend-function factors. -/
structure GLState where
  depth_test : Bool
  blend : Bool
  blend_src_rgb : Nat
  blend_src_alpha : Nat
  blend_dst_rgb : Nat
  blend_dst_alpha : Nat
deriving DecidableEq

/-- Embeds the shader pick of lines 303-315: mode 0 selects the integration
compute program, 1 the isosurface program, 2 the aggregation program, and any
other mode value hits the `Unknown raycast mode` error return. -/
def pickShader (mode : Int) : Option Shader :=
  if mode = 0 then some .compute
  else if mode = 1 then some .compute_iso
  else if mode = 2 then some .compute_aggr
  else none

/-- The largest of the three cached resolution components, as the float
`maxResolution` of lines 343-344: `std::max(r0, std::max(r1, r2))`. -/
def maxResolutionQ (s : RendererState) : ℚ :=
  max (s.m_volume_resolution.1 : ℚ)
    (max (s.m_volume_resolution.2.1 : ℚ) (s.m_volume_resolution.2.2 : ℚ))

/-- The largest of the three cached extents, as `maxExtents` of line 345. -/
def maxExtentsQ (s : RendererState) : ℚ :=
  max s.m_volume_extents.1 (max s.m_volume_extents.2.1 s.m_volume_extents.2.2)

/-- Embeds the shared uniform setup of lines 320-387, in source order: camera
matrices, render-target resolution, volume bounding box, half-voxel and voxel
sizes, value range (user override or metadata range), ray-step ratio, lighting
parameters, the four colors, and the background color (white when no enclosing
view is found). -/
def sharedUniforms (cfg : RenderConfig) (env : RenderEnv) (s : RendererState) :
    List RenderAction :=
  let b := match env.bkgnd with
    | some c => c
    | none => ((1 : ℚ), (1 : ℚ), (1 : ℚ))
  [ .uniform .view_mx (.mat env.viewMx),
    .uniform .proj_mx (.mat env.projMx),
    .uniform .rt_resolution (.v2 (env.viewportW : ℚ) (env.viewportH : ℚ)),
    .uniform .boxMin (.v3 s.m_volume_origin.1 s.m_volume_origin.2.1 s.m_volume_origin.2.2),
    .uniform .boxMax (.v3 (s.m_volume_origin.1 + s.m_volume_extents.1)
      (s.m_volume_origin.2.1 + s.m_volume_extents.2.1)
      (s.m_volume_origin.2.2 + s.m_volume_extents.2.2)),
    .uniform .halfVoxelSize (.v3
      (1 / (2 * ((s.m_volume_resolution.1 : ℚ) - 1)))
      (1 / (2 * ((s.m_volume_resolution.2.1 : ℚ) - 1)))
      (1 / (2 * ((s.m_volume_resolution.2.2 : ℚ) - 1)))),
    .uniform .voxelSize (.f (maxExtentsQ s / (maxResolutionQ s - 1))),
    .uniform .valRange (if cfg.overrideEnabled then .v2 cfg.minOverride cfg.maxOverride
      else .v2 s.valRange.1 s.valRange.2),
    .uniform .rayStep (.f cfg.ray_step),
    .uniform .use_lighting (.i (if cfg.use_lighting then 1 else 0)),
    .uniform .ka (.f cfg.ka),
    .uniform .kd (.f cfg.kd),
    .uniform .ks (.f cfg.ks),
    .uniform .shininess (.f cfg.shininess),
    .uniform .light (.v3 env.light.1 env.light.2.1 env.light.2.2.1),
    .uniform .ambient_col (.v3 cfg.ambient_color.1 cfg.ambient_color.2.1 cfg.ambient_color.2.2.1),
    .uniform .specular_col (.v3 cfg.specular_color.1 cfg.specular_color.2.1 cfg.specular_color.2.2.1),
    .uniform .light_col (.v3 cfg.light_color.1 cfg.light_color.2.1 cfg.light_color.2.2.1),
    .uniform .material_col (.v3 cfg.material_color.1 cfg.material_color.2.1 cfg.material_color.2.2.1),
    .uniform .background (.v3 b.1 b.2.1 b.2.2) ]

/-- Embeds the mode-specific uniform setup of lines 389-398: mode 0 sets
`opacityThreshold`, mode 1 sets `isoValue` and `opacity`, every other mode
value sets nothing here. -/
def modeUniforms (cfg : RenderConfig) : List RenderAction :=
  if cfg.mode = 0 then
    [.uniform .opacityThreshold (.f cfg.opacity_threshold)]
  else if cfg.mode = 1 then
    [.uniform .isoValue (.f cfg.iso_value), .uniform .opacity (.f cfg.opacity)]
  else []

/-- Embeds the texture-binding section of the compute pass (lines 404-444): the
volume texture always goes to unit 0; mode 0 additionally binds the transfer
function to unit 1 and, when chained, the FBO color/depth snapshot to units 2-3
with `use_depth_tx` 1 (0 and no snapshot otherwise); mode 2 binds only the
snapshot part, with the same chaining rule. -/
def computeBindings (mode : Int) (chained : Bool) (tf : Nat) : List RenderAction :=
  [.bindTexture 0 GL_TEXTURE_3D .volume, .uniform .volume_tx3D (.i 0)]
  ++ (if mode = 0 then
        [.bindTexture 1 GL_TEXTURE_1D (.transfer tf), .uniform .tf_tx1D (.i 1)]
        ++ (if chained then
              [.bindTexture 2 GL_TEXTURE_2D .fboColor, .uniform .color_tx2D (.i 2),
               .bindTexture 3 GL_TEXTURE_2D .fboDepth, .uniform .depth_tx2D (.i 3),
               .uniform .use_depth_tx (.i 1)]
            else [.uniform .use_depth_tx (.i 0)])
      else [])
  ++ (if mode = 2 then
        (if chained then
          [.bindTexture 2 GL_TEXTURE_2D .fboColor, .uniform .color_tx2D (.i 2),
           .bindTexture 3 GL_TEXTURE_2D .fboDepth, .uniform .depth_tx2D (.i 3),
           .uniform .use_depth_tx (.i 1)]
        else [.uniform .use_depth_tx (.i 0)])
      else [])

/-- Embeds the image bindings of lines 446-452: the render target is bound
write-only at slot 0, and mode 1 additionally binds the normal and depth targets
at slots 1 and 2. -/
def imageBindings (mode : Int) : List RenderAction :=
  [.bindImage 0 .renderTarget]
  ++ (if mode = 1 then [.bindImage 1 .normalTarget, .bindImage 2 .depthTarget] else [])

/-- Embeds the unbinding section after the dispatch (lines 458-477): image slots
2 and 1 for mode 1, slot 0 always, texture units 3 and 2 for modes 0 and 2,
unit 1 for mode 0, and unit 0 always. -/
def computeUnbind (mode : Int) : List RenderAction :=
  (if mode = 1 then [.unbindImage 2, .unbindImage 1] else [])
  ++ [.unbindImage 0]
  ++ (if mode = 0 ∨ mode = 2 then
        [.bindTexture 3 GL_TEXTURE_2D .null, .bindTexture 2 GL_TEXTURE_2D .null]
      else [])
  ++ (if mode = 0 then [.bindTexture 1 GL_TEXTURE_1D .null] else [])
  ++ [.bindTexture 0 GL_TEXTURE_3D .null]

/-- Embeds the min/max scan of the aggregate-mode readback (lines 484-503): the
alpha channel is folded with `std::numeric_limits<float>` max/lowest as the
initial values, taking `val < rndr_min` and `val > rndr_max` updates. -/
def readbackRange (alphas : List ℚ) : ℚ × ℚ :=
  List.foldl
    (fun mm v => (if v < mm.1 then v else mm.1, if mm.2 < v then v else mm.2))
    (flt_max, flt_lowest) alphas

/-- The readback's GPU calls (mode 2 only): bind the render target at unit 0,
read the image back, unbind. -/
def readbackActions (mode : Int) : List RenderAction :=
  if mode = 2 then
    [.bindTexture 0 GL_TEXTURE_2D .renderTarget, .readbackRenderTarget,
     .bindTexture 0 GL_TEXTURE_2D .null]
  else []

/-- The whole compute pass of `Render` for a validly picked shader: enable the
program, set shared then mode-specific uniforms, bind textures and images,
dispatch with `ceil(w / 8) * ceil(h / 8) * 1` groups, unbind everything, disable
the program, and issue the texture-fetch memory barrier (lines 318-481). -/
def computePassTrace (cfg : RenderConfig) (env : RenderEnv) (s : RendererState)
    (shdr : Shader) : List RenderAction :=
  [.enableProgram shdr]
  ++ sharedUniforms cfg env s
  ++ modeUniforms cfg
  ++ computeBindings cfg.mode env.chained s.tf_texture
  ++ imageBindings cfg.mode
  ++ [.dispatchCompute ((env.viewportW + 7) / 8) ((env.viewportH + 7) / 8) 1]
  ++ computeUnbind cfg.mode
  ++ [.disableProgram shdr, .memoryBarrier]

/-- Embeds the compositing section's GPU-state effect (lines 506-523 and 574-579):
save the depth-test/blend enables and the four blend factors; disable depth
testing for modes 0 and 2, enable it for mode 1; enable blending; set the
standard alpha blend function; and at the end restore the saved factors with
`glBlendFuncSeparate`, re-disable blending when it was off, and set the
depth-test enable back to its saved value. -/
def compositeGL (mode : Int) (g0 : GLState) : GLState :=
  let state_depth_test := g0.depth_test
  let state_blend := g0.blend
  let s_src_rgb := g0.blend_src_rgb
  let s_src_a := g0.blend_src_alpha
  let s_dst_rgb := g0.blend_dst_rgb
  let s_dst_a := g0.blend_dst_alpha
  let g1 :=
    if mode = 0 ∨ mode = 2 then
      (if state_depth_test then { g0 with depth_test := false } else g0)
    else if mode = 1 then
      (if state_depth_test = false then { g0 with depth_test := true } else g0)
    else g0
  let g2 := if state_blend = false then { g1 with blend := true } else g1
  let g3 := { g2 with blend_src_rgb := GL_SRC_ALPHA, blend_src_alpha := GL_SRC_ALPHA,
                      blend_dst_rgb := GL_ONE_MINUS_SRC_ALPHA,
                      blend_dst_alpha := GL_ONE_MINUS_SRC_ALPHA }
  let g4 := { g3 with blend_src_rgb := s_src_rgb, blend_dst_rgb := s_dst_rgb,
                      blend_src_alpha := s_src_a, blend_dst_alpha := s_dst_a }
  let g5 := if state_blend = false then { g4 with blend := false } else g4
  if state_depth_test then { g5 with depth_test := true }
  else { g5 with depth_test := false }

/-- Embeds the compositing section's draw calls (lines 525-572): pick the plain or
aggregate full-screen program, bind the render target at unit 0, for mode 1 also
the normal and depth targets at units 1-2 with dual color attachments, for mode 2
the transfer function at unit 1 with the readback range as `valRange`; draw the
6-vertex full-screen pair; then unbind everything and disable the program. -/
def compositeActions (mode : Int) (tf : Nat) (rr : ℚ × ℚ) : List RenderAction :=
  let shdr : Shader := if mode = 2 then .render_to_framebuffer_aggr else .render_to_framebuffer
  [.enableProgram shdr,
   .bindTexture 0 GL_TEXTURE_2D .renderTarget, .uniform .src_tx2D (.i 0)]
  ++ (if mode = 1 then
        [.bindTexture 1 GL_TEXTURE_2D .normalTarget, .uniform .normal_tx2D (.i 1),
         .bindTexture 2 GL_TEXTURE_2D .depthTarget, .uniform .depth_tx2D (.i 2),
         .drawBuffers2]
      else [])
  ++ (if mode = 2 then
        [.bindTexture 1 GL_TEXTURE_1D (.transfer tf), .uniform .tf_tx1D (.i 1),
         .uniform .valRange (.v2 rr.1 rr.2)]
      else [])
  ++ [.drawArrays 6]
  ++ (if mode = 1 then
        [.bindTexture 2 GL_TEXTURE_2D .null, .bindTexture 1 GL_TEXTURE_2D .null]
      else [])
  ++ (if mode = 2 then [.bindTexture 1 GL_TEXTURE_1D .null] else [])
  ++ [.bindTexture 0 GL_TEXTURE_2D .null, .disableProgram shdr]

/-- Embeds the chained-renderer prologue (lines 229-250): when an upstream
renderer is connected, modes 0 and 2 first snapshot it into the FBO, and its
`FnRender` is invoked for every mode. -/
def chainTrace (mode : Int) (env : RenderEnv) : List RenderAction :=
  if env.chained then
    (if mode = 0 ∨ mode = 2 then [.fboSnapshot] else []) ++ [.chainRender]
  else []

/-- The transfer-function refresh performed inside the shader pick (lines 304 and
310): modes 0 and 2 call `updateTransferFunction`, mode 1 does not. -/
def tfTrace (mode : Int) : List RenderAction :=
  if mode = 0 ∨ mode = 2 then [.tfFetch] else []

/-- The renderer state after the transfer-function refresh of the shader pick:
for modes 0 and 2 the held handle is replaced per `updateTransferFunction`,
otherwise the state is untouched. -/
def tfStateAfter (mode : Int) (env : RenderEnv) (s : RendererState) : RendererState :=
  if mode = 0 ∨ mode = 2 then
    { s with tf_texture := (updateTransferFunction s.tf_texture env.tfCall).2 }
  else s

/-- Result of one `Render` call: the returned `bool`, the renderer state after the
call, the ambient GPU blend/depth state after the call, and the issued GPU calls. -/
structure RenderOut where
  ok : Bool
  state : RendererState
  gl : GLState
  trace : List RenderAction
deriving DecidableEq

/-- Embeds `RaycastVolumeRenderer::Render` (lines 225-582).  In source order: when
an upstream renderer is chained, snapshot it into the FBO (modes 0 and 2) and call
its `FnRender`, failing when that call fails; (re)create the render targets (pure
resource sizing, no trace entry); run `updateVolumeData`, failing on its failure;
pick the compute shader by mode, failing on an unknown mode, and refresh the
transfer function for modes 0 and 2; run the compute pass; for mode 2 read the
render target back and scan its alpha range; and composite to the framebuffer,
saving and restoring the ambient blend/depth state. -/
def Render (cfg : RenderConfig) (env : RenderEnv) (s : RendererState) (g : GLState) :
    RenderOut :=
  if env.chained ∧ env.chainedRenderOk = false then ⟨false, s, g, chainTrace cfg.mode env⟩
  else
    let u := updateVolumeData s env.volResponse
    if u.ok = false then ⟨false, u.state, g, chainTrace cfg.mode env ++ u.uploads⟩
    else
      match pickShader cfg.mode with
      | none => ⟨false, u.state, g, chainTrace cfg.mode env ++ u.uploads⟩
      | some shdr =>
        let s2 := tfStateAfter cfg.mode env u.state
        let rr := if cfg.mode = 2 then readbackRange env.readbackAlphas
          else (flt_max, flt_lowest)
        ⟨true, s2, compositeGL cfg.mode g,
          chainTrace cfg.mode env ++ u.uploads ++ tfTrace cfg.mode
            ++ computePassTrace cfg env s2 shdr
            ++ readbackActions cfg.mode
            ++ compositeActions cfg.mode s2.tf_texture rr⟩

/-- Tests whether a GPU action is a `glBindTexture` of the transfer-function
texture (any unit, any target, any held handle). -/
def bindsTransfer : RenderAction → Bool
  | .bindTexture _ _ (.transfer _) => true
  | _ => false

/-- Concrete metadata fixture: a cartesian 128x128x128 float32 volume with unit
extents at the origin and value range [0, 1]. -/
def mdCart : VolumeMetadata :=
  ⟨CARTESIAN, (0, 0, 0), (1, 1, 1), (128, 128, 128), .FLOATING_POINT, 4, 0, 1⟩

/-- Concrete renderer-state fixture: cached identity (0, 0), unit geometry,
resolution 8x8x8, no volume texture yet, transfer-function handle 0. -/
def s0 : RendererState := ⟨0, 0, (0, 0, 0), (1, 1, 1), (8, 8, 8), (0, 1), none, 0⟩

/-- The fixture `s0` with cached resolution 128x128x128. -/
def s128 : RendererState := { s0 with m_volume_resolution := (128, 128, 128) }

/-- A settled data-source answer carrying a RECTILINEAR grid (changed identity). -/
def respRect : VolDataResponse := ⟨1, 0, { mdCart with GridType := RECTILINEAR }, 0⟩

/-- A settled data-source answer carrying the unsupported BITS scalar type
(changed identity). -/
def respBits : VolDataResponse := ⟨1, 0, { mdCart with ScalarType := .BITS }, 0⟩

/-- A settled data-source answer carrying valid cartesian float32 metadata
(changed identity). -/
def respCart : VolDataResponse := ⟨1, 0, mdCart, 0⟩

/-- A settled data-source answer whose metadata reports resolution 1x1x1. -/
def respRes1 : VolDataResponse := ⟨1, 0, { mdCart with Resolution := (1, 1, 1) }, 0⟩

/-- Concrete parameter fixture: mode 0 (Integration) with the source's default
parameter values. -/
def cfg0 : RenderConfig :=
  ⟨0, 1, false, 1/10, 1/2, 2/5, 10, (1, 1, 1, 1), (1, 1, 1, 1), (1, 1, 1, 1),
   (19/20, 67/100, 47/100, 1), 1, 1/2, 1, false, 0, 1⟩

/-- The fixture `cfg0` switched to mode 1 (Isosurface). -/
def cfg1 : RenderConfig := { cfg0 with mode := 1 }

/-- The fixture `cfg0` switched to the invalid mode value 3. -/
def cfg3 : RenderConfig := { cfg0 with mode := 3 }

/-- Concrete environment fixture: no chained renderer, 8x8 viewport, no
transfer-function provider, and a data source answering with `respRes1`. -/
def env1 : RenderEnv := ⟨false, true, 8, 8, 0, 0, (0, 0, 1, 1), none, none, some respRes1, []⟩

/-- Concrete ambient GL state fixture: both enables off, blend factors (1,1,0,0). -/
def g0 : GLState := ⟨false, false, 1, 1, 0, 0⟩

/-- The compositing section restores the ambient blend/depth state it saved,
for every mode value and every initial state. -/
theorem compositeGL_id (mode : Int) (g : GLState) : compositeGL mode g = g := by
  cases g with
  | mk dt bl a b c d =>
    simp only [compositeGL]
    cases dt <;> cases bl <;> split_ifs <;> simp_all

/-- With no settled data-source answer, `updateVolumeData` fails without any
state change or upload. -/
theorem updateVolumeData_none (s : RendererState) :
    updateVolumeData s none = ⟨false, s, []⟩ := rfl

/-- When the fetched identity equals the cached identity, `updateVolumeData`
returns success at once, with no state change and no upload. -/
theorem updateVolumeData_hit (s : RendererState) (cd : VolDataResponse)
    (h : s.m_volume_datahash = cd.DataHash ∧ s.m_frame_id = cd.FrameID) :
    updateVolumeData s (some cd) = ⟨true, s, []⟩ := by
  simp only [updateVolumeData]
  rw [if_pos h]

/-- When the identity changed and the grid-type test fires, `updateVolumeData`
fails with the new identity already cached and nothing else changed. -/
theorem updateVolumeData_gridfail (s : RendererState) (cd : VolDataResponse)
    (h : ¬(s.m_volume_datahash = cd.DataHash ∧ s.m_frame_id = cd.FrameID))
    (hg : gridTypeCheckFires cd.Metadata.GridType = true) :
    updateVolumeData s (some cd) =
      ⟨false, { s with m_volume_datahash := cd.DataHash, m_frame_id := cd.FrameID }, []⟩ := by
  simp only [updateVolumeData]
  rw [if_neg h, if_pos hg]

/-- When the identity changed, the grid-type test passes and the scalar format is
unsupported, `updateVolumeData` fails with identity, geometry and value range
already cached but the texture untouched. -/
theorem updateVolumeData_fmtfail (s : RendererState) (cd : VolDataResponse)
    (h : ¬(s.m_volume_datahash = cd.DataHash ∧ s.m_frame_id = cd.FrameID))
    (hg : gridTypeCheckFires cd.Metadata.GridType = false)
    (hm : mapScalarFormat cd.Metadata.ScalarType cd.Metadata.ScalarLength = none) :
    updateVolumeData s (some cd) =
      ⟨false, { s with
          m_volume_datahash := cd.DataHash, m_frame_id := cd.FrameID,
          m_volume_origin := cd.Metadata.Origin,
          m_volume_extents := cd.Metadata.Extents,
          m_volume_resolution := cd.Metadata.Resolution,
          valRange := (cd.Metadata.MinValues0, cd.Metadata.MaxValues0) }, []⟩ := by
  simp only [updateVolumeData]
  rw [if_neg h, if_neg (by simp [hg]), hm]

/-- The full success path of `updateVolumeData`: changed identity, passing grid
test, supported format; all cached state is replaced and the 3D texture is
created from the mapped format. -/
theorem updateVolumeData_success (s : RendererState) (cd : VolDataResponse)
    (fmt : TextureFormat)
    (h : ¬(s.m_volume_datahash = cd.DataHash ∧ s.m_frame_id = cd.FrameID))
    (hg : gridTypeCheckFires cd.Metadata.GridType = false)
    (hm : mapScalarFormat cd.Metadata.ScalarType cd.Metadata.ScalarLength = some fmt) :
    updateVolumeData s (some cd) =
      ⟨true, { s with
          m_volume_datahash := cd.DataHash, m_frame_id := cd.FrameID,
          m_volume_origin := cd.Metadata.Origin,
          m_volume_extents := cd.Metadata.Extents,
          m_volume_resolution := cd.Metadata.Resolution,
          valRange := (cd.Metadata.MinValues0, cd.Metadata.MaxValues0),
          m_volume_texture := some (volumeLayout fmt cd.Metadata, cd.Data) },
        [.createVolumeTexture (volumeLayout fmt cd.Metadata) cd.Data]⟩ := by
  simp only [updateVolumeData]
  rw [if_neg h, if_neg (by simp [hg]), hm]

/-- The uploads of one `updateVolumeData` call are either empty or a single
texture creation. -/
theorem uploads_shape (s : RendererState) (resp : Option VolDataResponse) :
    (updateVolumeData s resp).uploads = [] ∨
    ∃ l d, (updateVolumeData s resp).uploads = [RenderAction.createVolumeTexture l d] := by
  cases resp with
  | none => left; rfl
  | some cd =>
    by_cases h : s.m_volume_datahash = cd.DataHash ∧ s.m_frame_id = cd.FrameID
    · left; rw [updateVolumeData_hit s cd h]
    · by_cases hg : gridTypeCheckFires cd.Metadata.GridType = true
      · left; rw [updateVolumeData_gridfail s cd h hg]
      · rw [Bool.not_eq_true] at hg
        cases hm : mapScalarFormat cd.Metadata.ScalarType cd.Metadata.ScalarLength with
        | none => left; rw [updateVolumeData_fmtfail s cd h hg hm]
        | some fmt =>
          right
          exact ⟨_, _, by rw [updateVolumeData_success s cd fmt h hg hm]⟩

/-- After a successful `updateVolumeData` call, the cached identity equals the
fetched identity. -/
theorem update_ok_identity (s : RendererState) (cd : VolDataResponse)
    (h : (updateVolumeData s (some cd)).ok = true) :
    (updateVolumeData s (some cd)).state.m_volume_datahash = cd.DataHash ∧
    (updateVolumeData s (some cd)).state.m_frame_id = cd.FrameID := by
  by_cases h1 : s.m_volume_datahash = cd.DataHash ∧ s.m_frame_id = cd.FrameID
  · rw [updateVolumeData_hit s cd h1]; exact h1
  · by_cases hg : gridTypeCheckFires cd.Metadata.GridType = true
    · rw [updateVolumeData_gridfail s cd h1 hg] at h; simp at h
    · rw [Bool.not_eq_true] at hg
      cases hm : mapScalarFormat cd.Metadata.ScalarType cd.Metadata.ScalarLength with
      | none => rw [updateVolumeData_fmtfail s cd h1 hg hm] at h; simp at h
      | some fmt => rw [updateVolumeData_success s cd fmt h1 hg hm]; exact ⟨rfl, rfl⟩

/-- The source's scalar-format switch agrees with the table of spec §4.1 on
every (scalar type, scalar length) pair. -/
theorem mapScalarFormat_eq_spec (st : ScalarType) (len : Nat) :
    mapScalarFormat st len = specFormatTable st len := by
  cases st <;> simp only [mapScalarFormat, specFormatTable] <;> split_ifs <;> simp_all

/-- When the chained renderer's `FnRender` fails, `Render` fails having issued
only the prologue. -/
theorem Render_chainfail (cfg : RenderConfig) (env : RenderEnv) (s : RendererState)
    (g : GLState) (h : env.chained ∧ env.chainedRenderOk = false) :
    Render cfg env s g = ⟨false, s, g, chainTrace cfg.mode env⟩ := by
  simp only [Render]
  rw [if_pos h]

/-- When `updateVolumeData` fails, `Render` fails having issued only the
prologue and the (empty) uploads. -/
theorem Render_updatefail (cfg : RenderConfig) (env : RenderEnv) (s : RendererState)
    (g : GLState) (hc : ¬(env.chained ∧ env.chainedRenderOk = false))
    (hu : (updateVolumeData s env.volResponse).ok = false) :
    Render cfg env s g = ⟨false, (updateVolumeData s env.volResponse).state, g,
      chainTrace cfg.mode env ++ (updateVolumeData s env.volResponse).uploads⟩ := by
  simp only [Render]
  rw [if_neg hc, if_pos hu]

/-- When the mode value selects no shader, `Render` fails before the compute
pass begins. -/
theorem Render_badmode (cfg : RenderConfig) (env : RenderEnv) (s : RendererState)
    (g : GLState) (hc : ¬(env.chained ∧ env.chainedRenderOk = false))
    (hu : ¬((updateVolumeData s env.volResponse).ok = false))
    (hm : pickShader cfg.mode = none) :
    Render cfg env s g = ⟨false, (updateVolumeData s env.volResponse).state, g,
      chainTrace cfg.mode env ++ (updateVolumeData s env.volResponse).uploads⟩ := by
  simp only [Render]
  rw [if_neg hc, if_neg hu, hm]

/-- The success path of `Render`: the full trace in section order and the
composited GL state. -/
theorem Render_success (cfg : RenderConfig) (env : RenderEnv) (s : RendererState)
    (g : GLState) (shdr : Shader) (hc : ¬(env.chained ∧ env.chainedRenderOk = false))
    (hu : ¬((updateVolumeData s env.volResponse).ok = false))
    (hm : pickShader cfg.mode = some shdr) :
    Render cfg env s g =
      ⟨true, tfStateAfter cfg.mode env (updateVolumeData s env.volResponse).state,
        compositeGL cfg.mode g,
        chainTrace cfg.mode env ++ (updateVolumeData s env.volResponse).uploads
          ++ tfTrace cfg.mode
          ++ computePassTrace cfg env
              (tfStateAfter cfg.mode env (updateVolumeData s env.volResponse).state) shdr
          ++ readbackActions cfg.mode
          ++ compositeActions cfg.mode
              (tfStateAfter cfg.mode env (updateVolumeData s env.volResponse).state).tf_texture
              (if cfg.mode = 2 then readbackRange env.readbackAlphas
                else (flt_max, flt_lowest))⟩ := by
  simp only [Render]
  rw [if_neg hc, if_neg hu, hm]

/-- Every prologue action is the FBO snapshot or the chained render call. -/
theorem mem_chainTrace (mode : Int) (env : RenderEnv) (a : RenderAction)
    (h : a ∈ chainTrace mode env) :
    a = .fboSnapshot ∨ a = .chainRender := by
  simp only [chainTrace] at h
  split_ifs at h <;> simp_all

/-- Every transfer-function refresh action is the fetch itself. -/
theorem mem_tfTrace (mode : Int) (a : RenderAction) (h : a ∈ tfTrace mode) :
    a = .tfFetch := by
  simp only [tfTrace] at h
  split_ifs at h <;> simp_all

/-- No uniform-setting action occurs in the prologue. -/
theorem uniform_not_mem_chainTrace (m : Int) (env : RenderEnv) (n : UName) (v : UVal) :
    RenderAction.uniform n v ∉ chainTrace m env := by
  intro h
  rcases mem_chainTrace m env _ h with h1 | h1 <;> simp at h1

/-- No uniform-setting action occurs among the volume uploads. -/
theorem uniform_not_mem_uploads (s : RendererState) (r : Option VolDataResponse)
    (n : UName) (v : UVal) :
    RenderAction.uniform n v ∉ (updateVolumeData s r).uploads := by
  intro h
  rcases uploads_shape s r with hs | ⟨l, d, hs⟩ <;> rw [hs] at h <;> simp at h

/-- No uniform-setting action occurs in the transfer-function refresh. -/
theorem uniform_not_mem_tfTrace (m : Int) (n : UName) (v : UVal) :
    RenderAction.uniform n v ∉ tfTrace m := by
  intro h
  have h1 := mem_tfTrace m _ h
  simp at h1

/-- No compute dispatch occurs in the prologue. -/
theorem dispatch_not_mem_chainTrace (m : Int) (env : RenderEnv) (x y z : Nat) :
    RenderAction.dispatchCompute x y z ∉ chainTrace m env := by
  intro h
  rcases mem_chainTrace m env _ h with h1 | h1 <;> simp at h1

/-- No compute dispatch occurs among the volume uploads. -/
theorem dispatch_not_mem_uploads (s : RendererState) (r : Option VolDataResponse)
    (x y z : Nat) :
    RenderAction.dispatchCompute x y z ∉ (updateVolumeData s r).uploads := by
  intro h
  rcases uploads_shape s r with hs | ⟨l, d, hs⟩ <;> rw [hs] at h <;> simp at h

/-- Every uniform-setting action in a `Render` trace comes from the compute
pass, the readback, or the compositing pass. -/
theorem key_uniform_mem (cfg : RenderConfig) (env : RenderEnv) (s : RendererState)
    (g : GLState) (n : UName) (v : UVal)
    (h : RenderAction.uniform n v ∈ (Render cfg env s g).trace) :
    ∃ s2 shdr rr,
      RenderAction.uniform n v ∈ computePassTrace cfg env s2 shdr ∨
      RenderAction.uniform n v ∈ readbackActions cfg.mode ∨
      RenderAction.uniform n v ∈ compositeActions cfg.mode s2.tf_texture rr := by
  by_cases hc : env.chained ∧ env.chainedRenderOk = false
  · rw [Render_chainfail cfg env s g hc] at h
    exact absurd h (uniform_not_mem_chainTrace _ _ _ _)
  · by_cases hu : (updateVolumeData s env.volResponse).ok = false
    · rw [Render_updatefail cfg env s g hc hu] at h
      rcases List.mem_append.mp h with h1 | h1
      · exact absurd h1 (uniform_not_mem_chainTrace _ _ _ _)
      · exact absurd h1 (uniform_not_mem_uploads _ _ _ _)
    · cases hm : pickShader cfg.mode with
      | none =>
        rw [Render_badmode cfg env s g hc hu hm] at h
        rcases List.mem_append.mp h with h1 | h1
        · exact absurd h1 (uniform_not_mem_chainTrace _ _ _ _)
        · exact absurd h1 (uniform_not_mem_uploads _ _ _ _)
      | some shdr =>
        rw [Render_success cfg env s g shdr hc hu hm] at h
        simp only [List.append_assoc, List.mem_append] at h
        rcases h with h1 | h1 | h1 | h1 | h1 | h1
        · exact absurd h1 (uniform_not_mem_chainTrace _ _ _ _)
        · exact absurd h1 (uniform_not_mem_uploads _ _ _ _)
        · exact absurd h1 (uniform_not_mem_tfTrace _ _ _)
        · exact ⟨tfStateAfter cfg.mode env (updateVolumeData s env.volResponse).state,
            shdr, (flt_max, flt_lowest), Or.inl h1⟩
        · exact ⟨tfStateAfter cfg.mode env (updateVolumeData s env.volResponse).state,
            shdr, (flt_max, flt_lowest), Or.inr (Or.inl h1)⟩
        · exact ⟨tfStateAfter cfg.mode env (updateVolumeData s env.volResponse).state,
            shdr, _, Or.inr (Or.inr h1)⟩

/-- C1: the claim states that every volume whose metadata reports a grid type
other than CARTESIAN is refused by the volume update with no texture created,
and that CARTESIAN passes.  The source's test `!metadata->GridType ==
core::misc::CARTESIAN` (line 607) applies `!` before `==`, so it fires only for
grid type NONE: this theorem evaluates the embedded code at the failing input —
a RECTILINEAR (and likewise TETRAHEDRAL) volume passes the check, the update
reports success and creates the volume texture, contradicting the claim, while
CARTESIAN passes as claimed and only NONE is rejected. -/
theorem claim_C1_theorem :
    gridTypeCheckFires RECTILINEAR = false ∧
    gridTypeCheckFires TETRAHEDRAL = false ∧
    gridTypeCheckFires CARTESIAN = false ∧
    gridTypeCheckFires NONE = true ∧
    (updateVolumeData s0 (some respRect)).ok = true ∧
    (updateVolumeData s0 (some respRect)).state.m_volume_texture ≠ none := by decide

/-- C2 counterexample: a call that fails on an unsupported scalar format after
detecting a changed identity does NOT leave the cached state unchanged — the
cached data hash and the cached resolution both change, refuting the claim at a
concrete input. -/
theorem claim_C2_counterexample :
    (updateVolumeData s0 (some respBits)).ok = false ∧
    s0.m_volume_datahash ≠ respBits.DataHash ∧
    (updateVolumeData s0 (some respBits)).state.m_volume_datahash ≠ s0.m_volume_datahash ∧
    (updateVolumeData s0 (some respBits)).state.m_volume_resolution ≠ s0.m_volume_resolution := by
  decide

/-- C2 amended: once a changed identity is detected, the new identity is cached
immediately — before any validation — so it is cached even when the call then
fails; a failing call never touches the volume texture and performs no upload;
and a grid-type failure (which happens before the geometry assignments) leaves
origin, extents, resolution and value range unchanged, while a scalar-format
failure has already overwritten them. -/
theorem claim_C2_amended (s : RendererState) (cd : VolDataResponse)
    (h : ¬(s.m_volume_datahash = cd.DataHash ∧ s.m_frame_id = cd.FrameID)) :
    (updateVolumeData s (some cd)).state.m_volume_datahash = cd.DataHash ∧
    (updateVolumeData s (some cd)).state.m_frame_id = cd.FrameID ∧
    ((updateVolumeData s (some cd)).ok = false →
      (updateVolumeData s (some cd)).state.m_volume_texture = s.m_volume_texture ∧
      (updateVolumeData s (some cd)).uploads = []) ∧
    (gridTypeCheckFires cd.Metadata.GridType = true →
      (updateVolumeData s (some cd)).state.m_volume_origin = s.m_volume_origin ∧
      (updateVolumeData s (some cd)).state.m_volume_extents = s.m_volume_extents ∧
      (updateVolumeData s (some cd)).state.m_volume_resolution = s.m_volume_resolution ∧
      (updateVolumeData s (some cd)).state.valRange = s.valRange) := by
  by_cases hg : gridTypeCheckFires cd.Metadata.GridType = true
  · rw [updateVolumeData_gridfail s cd h hg]; simp
  · rw [Bool.not_eq_true] at hg
    cases hm : mapScalarFormat cd.Metadata.ScalarType cd.Metadata.ScalarLength with
    | none => rw [updateVolumeData_fmtfail s cd h hg hm]; simp [hg]
    | some fmt => rw [updateVolumeData_success s cd fmt h hg hm]; simp [hg]

/-- C2 witness: the amended statement instantiated at the concrete
changed-identity BITS-format input. -/
theorem claim_C2_amended_witness :
    (updateVolumeData s0 (some respBits)).state.m_volume_datahash = respBits.DataHash ∧
    (updateVolumeData s0 (some respBits)).state.m_frame_id = respBits.FrameID ∧
    ((updateVolumeData s0 (some respBits)).ok = false →
      (updateVolumeData s0 (some respBits)).state.m_volume_texture = s0.m_volume_texture ∧
      (updateVolumeData s0 (some respBits)).uploads = []) ∧
    (gridTypeCheckFires respBits.Metadata.GridType = true →
      (updateVolumeData s0 (some respBits)).state.m_volume_origin = s0.m_volume_origin ∧
      (updateVolumeData s0 (some respBits)).state.m_volume_extents = s0.m_volume_extents ∧
      (updateVolumeData s0 (some respBits)).state.m_volume_resolution = s0.m_volume_resolution ∧
      (updateVolumeData s0 (some respBits)).state.valRange = s0.valRange) :=
  claim_C2_amended s0 respBits (by decide)

/-- C3 counterexample: in Aggregate mode (mode 2) the compute pass does not bind
the transfer-function texture at unit 1 (or anywhere): every binding the source
issues there (lines 430-444) is checked at the concrete input mode 2, chained,
held handle 5 — while the same binding IS issued in Integration mode, refuting
the claim's "in both Integration and Aggregate mode". -/
theorem claim_C3_counterexample :
    ((computeBindings 2 true 5).all fun a => !(bindsTransfer a)) = true ∧
    RenderAction.bindTexture 1 GL_TEXTURE_1D (.transfer 5) ∉ computeBindings 2 true 5 ∧
    RenderAction.bindTexture 1 GL_TEXTURE_1D (.transfer 5) ∈ computeBindings 0 true 5 := by
  decide

/-- C3 amended: in every compute pass the volume texture is bound to unit 0; the
transfer-function texture is bound to unit 1 in Integration mode only (Aggregate
mode binds it in the compositing pass instead, never in the compute pass); and
in both Integration and Aggregate mode the snapshot color and depth textures go
to units 2 and 3 with `use_depth_tx` 1 exactly when an upstream renderer is
chained, with the flag 0 and no snapshot binding otherwise. -/
theorem claim_C3_amended (mode : Int) (chained : Bool) (tf : Nat)
    (h : mode = 0 ∨ mode = 1 ∨ mode = 2) :
    RenderAction.bindTexture 0 GL_TEXTURE_3D .volume ∈ computeBindings mode chained tf ∧
    ((RenderAction.bindTexture 1 GL_TEXTURE_1D (.transfer tf) ∈
        computeBindings mode chained tf) ↔ mode = 0) ∧
    (mode = 0 ∨ mode = 2 →
      ((RenderAction.bindTexture 2 GL_TEXTURE_2D .fboColor ∈ computeBindings mode chained tf)
        ↔ chained = true) ∧
      ((RenderAction.bindTexture 3 GL_TEXTURE_2D .fboDepth ∈ computeBindings mode chained tf)
        ↔ chained = true) ∧
      ((RenderAction.uniform .use_depth_tx (.i 1) ∈ computeBindings mode chained tf)
        ↔ chained = true) ∧
      ((RenderAction.uniform .use_depth_tx (.i 0) ∈ computeBindings mode chained tf)
        ↔ chained = false)) ∧
    (mode = 2 → ((computeBindings mode chained tf).all fun a => !(bindsTransfer a)) = true) := by
  rcases h with rfl | rfl | rfl <;> cases chained <;>
    simp [computeBindings, bindsTransfer, GL_TEXTURE_1D, GL_TEXTURE_2D, GL_TEXTURE_3D]

/-- C3 witness: the amended statement applied at mode 0, chained, handle 7. -/
theorem claim_C3_amended_witness :
    RenderAction.bindTexture 1 GL_TEXTURE_1D (.transfer 7) ∈ computeBindings 0 true 7 ∧
    RenderAction.bindTexture 0 GL_TEXTURE_3D .volume ∈ computeBindings 0 true 7 :=
  ⟨((claim_C3_amended 0 true 7 (Or.inl rfl)).2.1).mpr rfl,
   (claim_C3_amended 0 true 7 (Or.inl rfl)).1⟩

/-- C4 counterexample: with a volume whose maximum resolution component is 1,
`Render` does not treat the configuration as an error — it succeeds and
dispatches the compute pass, so the division by zero in the voxel-size uniform
is reached (in IEEE float arithmetic it silently produces infinity), refuting
the claim's "treated as a configuration error". -/
theorem claim_C4_counterexample :
    (Render cfg0 env1 s0 g0).ok = true ∧
    RenderAction.dispatchCompute 1 1 1 ∈ (Render cfg0 env1 s0 g0).trace ∧
    maxResolutionQ (Render cfg0 env1 s0 g0).state = 1 := by
  decide

/-- C4 amended: the voxelSize uniform always equals
maxExtent / (maxResolution - 1); for resolution 128x128x128 with unit extents
this is 1/127; and there is no guard — when the cached maximum resolution is 1
the denominator is exactly 0 and the uniform is still emitted (the source
performs the division, yielding infinity in float arithmetic, instead of
failing). -/
theorem claim_C4_amended (cfg : RenderConfig) (env : RenderEnv) (s : RendererState) :
    (RenderAction.uniform .voxelSize (.f (maxExtentsQ s / (maxResolutionQ s - 1)))
      ∈ sharedUniforms cfg env s) ∧
    (s.m_volume_resolution = (128, 128, 128) → s.m_volume_extents = (1, 1, 1) →
      RenderAction.uniform .voxelSize (.f (1 / 127)) ∈ sharedUniforms cfg env s) ∧
    (s.m_volume_resolution = (1, 1, 1) →
      maxResolutionQ s - 1 = 0 ∧
      RenderAction.uniform .voxelSize (.f (maxExtentsQ s / 0)) ∈ sharedUniforms cfg env s) := by
  have base : RenderAction.uniform .voxelSize
      (.f (maxExtentsQ s / (maxResolutionQ s - 1))) ∈ sharedUniforms cfg env s := by
    simp [sharedUniforms]
  refine ⟨base, ?_, ?_⟩
  · intro h1 h2
    have hv : maxExtentsQ s / (maxResolutionQ s - 1) = 1 / 127 := by
      rw [maxExtentsQ, maxResolutionQ, h1, h2]
      norm_num
    rw [hv] at base
    exact base
  · intro h1
    have hm : maxResolutionQ s - 1 = 0 := by
      rw [maxResolutionQ, h1]
      norm_num
    refine ⟨hm, ?_⟩
    rw [hm] at base
    exact base

/-- C4 witness: the amended statement's 128-cubed example instantiated at the
concrete fixtures, giving voxelSize 1/127. -/
theorem claim_C4_amended_witness :
    RenderAction.uniform .voxelSize (.f (1 / 127)) ∈ sharedUniforms cfg0 env1 s128 :=
  (claim_C4_amended cfg0 env1 s128).2.1 rfl rfl

/-- C5: the scalar-format mapping is a total function agreeing with the table of
spec §4.1 on every (scalar type, scalar length) pair — in particular it is
deterministic and `none` exactly off the table — and whenever the fetched
metadata's pair is off the table (BITS included) the volume update fails. -/
theorem claim_C5 (st : ScalarType) (len : Nat) (s : RendererState) (cd : VolDataResponse)
    (hid : ¬(s.m_volume_datahash = cd.DataHash ∧ s.m_frame_id = cd.FrameID))
    (hgrid : gridTypeCheckFires cd.Metadata.GridType = false)
    (hfmt : specFormatTable cd.Metadata.ScalarType cd.Metadata.ScalarLength = none) :
    mapScalarFormat st len = specFormatTable st len ∧
    (updateVolumeData s (some cd)).ok = false := by
  refine ⟨mapScalarFormat_eq_spec st len, ?_⟩
  have hm : mapScalarFormat cd.Metadata.ScalarType cd.Metadata.ScalarLength = none :=
    (mapScalarFormat_eq_spec _ _).trans hfmt
  rw [updateVolumeData_fmtfail s cd hid hgrid hm]

/-- C5 witness: the theorem applied at the BITS scalar type and the concrete
BITS-format fetch, which fails the update. -/
theorem claim_C5_witness :
    mapScalarFormat .BITS 0 = specFormatTable .BITS 0 ∧
    (updateVolumeData s0 (some respBits)).ok = false :=
  claim_C5 .BITS 0 s0 respBits (by decide) (by decide) (by decide)

/-- C6: calling the volume update again after a successful call, with the data
source still answering the same (dataHash, frameID) identity, returns success
immediately with the state unchanged and zero GPU uploads. -/
theorem claim_C6 (s : RendererState) (cd : VolDataResponse)
    (h : (updateVolumeData s (some cd)).ok = true) :
    updateVolumeData (updateVolumeData s (some cd)).state (some cd) =
      ⟨true, (updateVolumeData s (some cd)).state, []⟩ :=
  updateVolumeData_hit _ cd (update_ok_identity s cd h)

/-- C6 witness: the theorem applied at the concrete cartesian float32 fetch. -/
theorem claim_C6_witness :
    updateVolumeData (updateVolumeData s0 (some respCart)).state (some respCart) =
      ⟨true, (updateVolumeData s0 (some respCart)).state, []⟩ :=
  claim_C6 s0 respCart (by decide)

/-- C7: mode dispatch is exhaustive and exclusive — mode 0 sets exactly the
opacity-threshold uniform and its render trace never contains an iso-value or
surface-opacity uniform; mode 1 sets exactly the iso-value and surface-opacity
uniforms and its trace never contains an opacity-threshold uniform; mode 2 sets
no mode-specific uniform and its trace contains none of the three; and every
mode value outside {0, 1, 2} makes the render call fail with no compute
dispatch ever issued. -/
theorem claim_C7 (cfg : RenderConfig) (env : RenderEnv) (s : RendererState) (g : GLState) :
    (cfg.mode = 0 →
      modeUniforms cfg = [.uniform .opacityThreshold (.f cfg.opacity_threshold)] ∧
      (∀ q : ℚ, RenderAction.uniform .isoValue (.f q) ∉ (Render cfg env s g).trace) ∧
      (∀ q : ℚ, RenderAction.uniform .opacity (.f q) ∉ (Render cfg env s g).trace)) ∧
    (cfg.mode = 1 →
      modeUniforms cfg = [.uniform .isoValue (.f cfg.iso_value),
        .uniform .opacity (.f cfg.opacity)] ∧
      (∀ q : ℚ, RenderAction.uniform .opacityThreshold (.f q) ∉ (Render cfg env s g).trace)) ∧
    (cfg.mode = 2 →
      modeUniforms cfg = [] ∧
      (∀ q : ℚ, RenderAction.uniform .opacityThreshold (.f q) ∉ (Render cfg env s g).trace) ∧
      (∀ q : ℚ, RenderAction.uniform .isoValue (.f q) ∉ (Render cfg env s g).trace) ∧
      (∀ q : ℚ, RenderAction.uniform .opacity (.f q) ∉ (Render cfg env s g).trace)) ∧
    (¬(cfg.mode = 0 ∨ cfg.mode = 1 ∨ cfg.mode = 2) →
      (Render cfg env s g).ok = false ∧
      ∀ x y z : Nat, RenderAction.dispatchCompute x y z ∉ (Render cfg env s g).trace) := by
  have kill : ∀ (n : UName) (q : ℚ),
      (∀ (s2 : RendererState) (shdr : Shader),
        RenderAction.uniform n (.f q) ∉ computePassTrace cfg env s2 shdr) →
      (RenderAction.uniform n (.f q) ∉ readbackActions cfg.mode) →
      (∀ (tf : Nat) (rr : ℚ × ℚ),
        RenderAction.uniform n (.f q) ∉ compositeActions cfg.mode tf rr) →
      RenderAction.uniform n (.f q) ∉ (Render cfg env s g).trace := by
    intro n q hcp hrb hca hmem
    obtain ⟨s2, shdr, rr, h1 | h1 | h1⟩ := key_uniform_mem cfg env s g n _ hmem
    · exact hcp s2 shdr h1
    · exact hrb h1
    · exact hca s2.tf_texture rr h1
  refine ⟨?_, ?_, ?_, ?_⟩
  · intro h0
    refine ⟨by simp [modeUniforms, h0], ?_, ?_⟩
    · intro q
      refine kill _ _ (fun s2 shdr hmem => ?_) (fun hmem => ?_) (fun tf rr hmem => ?_)
      · by_cases hch : env.chained <;>
          simp [computePassTrace, sharedUniforms, modeUniforms, computeBindings,
                imageBindings, computeUnbind, h0, hch] at hmem
      · simp [readbackActions, h0] at hmem
      · simp [compositeActions, h0] at hmem
    · intro q
      refine kill _ _ (fun s2 shdr hmem => ?_) (fun hmem => ?_) (fun tf rr hmem => ?_)
      · by_cases hch : env.chained <;>
          simp [computePassTrace, sharedUniforms, modeUniforms, computeBindings,
                imageBindings, computeUnbind, h0, hch] at hmem
      · simp [readbackActions, h0] at hmem
      · simp [compositeActions, h0] at hmem
  · intro h1
    refine ⟨by simp [modeUniforms, h1], ?_⟩
    intro q
    refine kill _ _ (fun s2 shdr hmem => ?_) (fun hmem => ?_) (fun tf rr hmem => ?_)
    · by_cases hch : env.chained <;>
        simp [computePassTrace, sharedUniforms, modeUniforms, computeBindings,
              imageBindings, computeUnbind, h1, hch] at hmem
    · simp [readbackActions, h1] at hmem
    · simp [compositeActions, h1] at hmem
  · intro h2
    refine ⟨by simp [modeUniforms, h2], ?_, ?_, ?_⟩ <;> intro q <;>
      refine kill _ _ (fun s2 shdr hmem => ?_) (fun hmem => ?_) (fun tf rr hmem => ?_)
    · by_cases hch : env.chained <;>
        simp [computePassTrace, sharedUniforms, modeUniforms, computeBindings,
              imageBindings, computeUnbind, h2, hch] at hmem
    · simp [readbackActions, h2] at hmem
    · simp [compositeActions, h2] at hmem
    · by_cases hch : env.chained <;>
        simp [computePassTrace, sharedUniforms, modeUniforms, computeBindings,
              imageBindings, computeUnbind, h2, hch] at hmem
    · simp [readbackActions, h2] at hmem
    · simp [compositeActions, h2] at hmem
    · by_cases hch : env.chained <;>
        simp [computePassTrace, sharedUniforms, modeUniforms, computeBindings,
              imageBindings, computeUnbind, h2, hch] at hmem
    · simp [readbackActions, h2] at hmem
    · simp [compositeActions, h2] at hmem
  · intro hbad
    have hm : pickShader cfg.mode = none := by
      simp only [pickShader]
      rw [if_neg (fun h => hbad (Or.inl h)), if_neg (fun h => hbad (Or.inr (Or.inl h))),
          if_neg (fun h => hbad (Or.inr (Or.inr h)))]
    by_cases hc : env.chained ∧ env.chainedRenderOk = false
    · rw [Render_chainfail cfg env s g hc]
      refine ⟨rfl, ?_⟩
      intro x y z hmem
      exact dispatch_not_mem_chainTrace _ _ _ _ _ hmem
    · by_cases hu : (updateVolumeData s env.volResponse).ok = false
      · rw [Render_updatefail cfg env s g hc hu]
        refine ⟨rfl, ?_⟩
        intro x y z hmem
        rcases List.mem_append.mp hmem with h1 | h1
        · exact dispatch_not_mem_chainTrace _ _ _ _ _ h1
        · exact dispatch_not_mem_uploads _ _ _ _ _ h1
      · rw [Render_badmode cfg env s g hc hu hm]
        refine ⟨rfl, ?_⟩
        intro x y z hmem
        rcases List.mem_append.mp hmem with h1 | h1
        · exact dispatch_not_mem_chainTrace _ _ _ _ _ h1
        · exact dispatch_not_mem_uploads _ _ _ _ _ h1

/-- C7 witness: the theorem applied at the invalid mode 3 (render fails) and at
mode 0 (exactly the opacity-threshold uniform is set). -/
theorem claim_C7_witness :
    (Render cfg3 env1 s0 g0).ok = false ∧
    modeUniforms cfg0 = [.uniform .opacityThreshold (.f cfg0.opacity_threshold)] :=
  ⟨((claim_C7 cfg3 env1 s0 g0).2.2.2 (by decide)).1,
   ((claim_C7 cfg0 env1 s0 g0).1 rfl).1⟩

/-- C10: in Isosurface mode (mode 1) the render call is observationally
independent of the transfer-function provider — swapping the provider state for
any other yields the identical result — and its trace never contains the
provider fetch nor any binding of a transfer-function texture, in the compute
pass or the compositing pass. -/
theorem claim_C10 (cfg : RenderConfig) (env : RenderEnv) (s : RendererState) (g : GLState)
    (t1 t2 : Option (Option Nat)) (hmode : cfg.mode = 1) :
    Render cfg { env with tfCall := t1 } s g = Render cfg { env with tfCall := t2 } s g ∧
    RenderAction.tfFetch ∉ (Render cfg env s g).trace ∧
    (∀ u tgt id : Nat,
      RenderAction.bindTexture u tgt (.transfer id) ∉ (Render cfg env s g).trace) := by
  have hps : pickShader cfg.mode = some .compute_iso := by simp [pickShader, hmode]
  have ctk : ∀ a : RenderAction, a ∈ chainTrace cfg.mode env →
      a = .fboSnapshot ∨ a = .chainRender := mem_chainTrace cfg.mode env
  have upk : ∀ a : RenderAction, a ∈ (updateVolumeData s env.volResponse).uploads →
      ∃ l d, a = .createVolumeTexture l d := by
    intro a h
    rcases uploads_shape s env.volResponse with hs | ⟨l, d, hs⟩ <;> rw [hs] at h
    · simp at h
    · simp at h
      exact ⟨l, d, h⟩
  refine ⟨?_, ?_, ?_⟩
  · by_cases hc : env.chained ∧ env.chainedRenderOk = false
    · rw [Render_chainfail cfg { env with tfCall := t1 } s g hc,
          Render_chainfail cfg { env with tfCall := t2 } s g hc]
      rfl
    · by_cases hu : (updateVolumeData s env.volResponse).ok = false
      · rw [Render_updatefail cfg { env with tfCall := t1 } s g hc hu,
            Render_updatefail cfg { env with tfCall := t2 } s g hc hu]
        rfl
      · rw [Render_success cfg { env with tfCall := t1 } s g .compute_iso hc hu hps,
            Render_success cfg { env with tfCall := t2 } s g .compute_iso hc hu hps]
        simp [tfStateAfter, tfTrace, chainTrace, computePassTrace, sharedUniforms,
              modeUniforms, computeBindings, imageBindings, computeUnbind,
              readbackActions, compositeActions, hmode]
  · by_cases hc : env.chained ∧ env.chainedRenderOk = false
    · rw [Render_chainfail cfg env s g hc]
      intro h
      rcases ctk _ h with h1 | h1 <;> simp at h1
    · by_cases hu : (updateVolumeData s env.volResponse).ok = false
      · rw [Render_updatefail cfg env s g hc hu]
        intro h
        rcases List.mem_append.mp h with h1 | h1
        · rcases ctk _ h1 with h2 | h2 <;> simp at h2
        · obtain ⟨l, d, h2⟩ := upk _ h1
          simp at h2
      · rw [Render_success cfg env s g .compute_iso hc hu hps]
        intro h
        simp only [List.append_assoc, List.mem_append] at h
        rcases h with h1 | h1 | h1 | h1 | h1 | h1
        · rcases ctk _ h1 with h2 | h2 <;> simp at h2
        · obtain ⟨l, d, h2⟩ := upk _ h1
          simp at h2
        · simp [tfTrace, hmode] at h1
        · by_cases hch : env.chained <;>
            simp [computePassTrace, sharedUniforms, modeUniforms, computeBindings,
                  imageBindings, computeUnbind, hmode, hch] at h1
        · simp [readbackActions, hmode] at h1
        · simp [compositeActions, hmode] at h1
  · intro un tgt id
    by_cases hc : env.chained ∧ env.chainedRenderOk = false
    · rw [Render_chainfail cfg env s g hc]
      intro h
      rcases ctk _ h with h1 | h1 <;> simp at h1
    · by_cases hu : (updateVolumeData s env.volResponse).ok = false
      · rw [Render_updatefail cfg env s g hc hu]
        intro h
        rcases List.mem_append.mp h with h1 | h1
        · rcases ctk _ h1 with h2 | h2 <;> simp at h2
        · obtain ⟨l, d, h2⟩ := upk _ h1
          simp at h2
      · rw [Render_success cfg env s g .compute_iso hc hu hps]
        intro h
        simp only [List.append_assoc, List.mem_append] at h
        rcases h with h1 | h1 | h1 | h1 | h1 | h1
        · rcases ctk _ h1 with h2 | h2 <;> simp at h2
        · obtain ⟨l, d, h2⟩ := upk _ h1
          simp at h2
        · simp [tfTrace, hmode] at h1
        · by_cases hch : env.chained <;>
            simp [computePassTrace, sharedUniforms, modeUniforms, computeBindings,
                  imageBindings, computeUnbind, hmode, hch] at h1
        · simp [readbackActions, hmode] at h1
        · simp [compositeActions, hmode] at h1

/-- C10 witness: at the concrete isosurface fixtures, a present-and-successful
provider and an absent provider yield identical renders, and no provider fetch
appears in the trace. -/
theorem claim_C10_witness :
    Render cfg1 { env1 with tfCall := some (some 3) } s0 g0 =
      Render cfg1 { env1 with tfCall := none } s0 g0 ∧
    RenderAction.tfFetch ∉ (Render cfg1 env1 s0 g0).trace :=
  ⟨(claim_C10 cfg1 env1 s0 g0 (some (some 3)) none rfl).1,
   (claim_C10 cfg1 env1 s0 g0 none none rfl).2.1⟩

/-- C8: the compositing pass restores the ambient GPU state exactly — for every
mode and every initial combination of blend/depth-test enables and the four
blend factors, the state after the pass equals the initial one bit for bit, and
consequently every `Render` call leaves the ambient blend/depth state equal to
what it found. -/
theorem claim_C8 :
    (∀ (mode : Int) (g : GLState), compositeGL mode g = g) ∧
    (∀ (cfg : RenderConfig) (env : RenderEnv) (s : RendererState) (g : GLState),
      (Render cfg env s g).gl = g) := by
  refine ⟨compositeGL_id, ?_⟩
  intro cfg env s g
  by_cases hc : env.chained ∧ env.chainedRenderOk = false
  · rw [Render_chainfail cfg env s g hc]
  · by_cases hu : (updateVolumeData s env.volResponse).ok = false
    · rw [Render_updatefail cfg env s g hc hu]
    · cases hm : pickShader cfg.mode with
      | none => rw [Render_badmode cfg env s g hc hu hm]
      | some shdr =>
        rw [Render_success cfg env s g shdr hc hu hm]
        exact compositeGL_id _ _

/-- C9: the transfer-function refresh reports success in every case — when the
provider is present and its fetch succeeds the held handle is replaced by the
fetched one, and when the provider is absent or the fetch fails the previously
held handle is kept unchanged while success is still reported. -/
theorem claim_C9 (tf : Nat) (ct : Option (Option Nat)) (t : Nat) :
    (updateTransferFunction tf ct).1 = true ∧
    updateTransferFunction tf (some (some t)) = (true, t) ∧
    updateTransferFunction tf (some none) = (true, tf) ∧
    updateTransferFunction tf none = (true, tf) := by
  refine ⟨?_, rfl, rfl, rfl⟩
  rcases ct with _ | (_ | t2) <;> rfl
